import Mathlib

/-!
Verification of the MPIConnection topology handle
(src/MPIConnection.hpp of shuiwenqingtian/rdma-experiments).

The header defines the fail-fast macro MPI_CHECK, the MPIConnection
class with six integer fields, const-reference accessors, two
constructors and a destructor, and declares the member functions
init, finalize, barrier, locale_barrier and hostname whose bodies are
not part of the repository sources available here; those members are
modelled from the specification and marked as such in their doc
comments.

Machine integers are modelled as Int: every value that occurs (ranks,
sizes, -1 sentinels, status codes) is tiny, far from any overflow
boundary, so wrap-around is irrelevant.
-/

namespace MPIRepo

/-! ## The fail-fast wrapper MPI_CHECK -/

/-- Outcome of running one guarded transport call through MPI_CHECK:
either execution continues normally, or the process has printed a line
to stderr and exited with the given status code. -/
inductive CheckOutcome where
  | ok : CheckOutcome
  | exited (stderrLine : String) (code : Nat) : CheckOutcome
deriving DecidableEq, Repr

/-- Shallow embedding of the MPI_CHECK macro of src/MPIConnection.hpp.
`callText` is the stringised call (the macro uses `#mpi_call`),
`retval` is the status code the call returned, and `errString` stands
for MPI_Error_string, the transport translation of a status code to a
human-readable message.  The macro compares `retval` with 0: nonzero
prints "MPI call failed: <call>: <error string>" to std::cerr and
calls exit(1); zero falls through with no effect. -/
def MPI_CHECK (callText : String) (retval : Int) (errString : Int → String) :
    CheckOutcome :=
  if retval ≠ 0 then
    CheckOutcome.exited ("MPI call failed: " ++ callText ++ ": " ++ errString retval ++ "\n") 1
  else
    CheckOutcome.ok

/-! ## The MPIConnection record -/

/-- The six private integer fields of class MPIConnection:
rank_ (global ID), size_ (total process count), locales_ (node count),
locale_ (node ID), locale_rank_ (node-local ID), locale_size_
(process count on this node). -/
structure MPIConnection where
  rank_ : Int
  size_ : Int
  locales_ : Int
  locale_ : Int
  locale_rank_ : Int
  locale_size_ : Int
deriving DecidableEq, Repr

/-- Accessor `rank`: const reference bound to rank_. -/
def MPIConnection.rank (c : MPIConnection) : Int := c.rank_

/-- Accessor `size`: const reference bound to size_. -/
def MPIConnection.size (c : MPIConnection) : Int := c.size_

/-- Accessor `ranks`: const reference bound to size_ (alias for size). -/
def MPIConnection.ranks (c : MPIConnection) : Int := c.size_

/-- Accessor `locales`: const reference bound to locales_. -/
def MPIConnection.locales (c : MPIConnection) : Int := c.locales_

/-- Accessor `locale`: const reference bound to locale_. -/
def MPIConnection.locale (c : MPIConnection) : Int := c.locale_

/-- Accessor `locale_rank`: const reference bound to locale_rank_. -/
def MPIConnection.locale_rank (c : MPIConnection) : Int := c.locale_rank_

/-- Accessor `locale_size`: const reference bound to locale_size_. -/
def MPIConnection.locale_size (c : MPIConnection) : Int := c.locale_size_

/-- Accessor `locale_ranks`: const reference bound to locale_size_
(alias for locale_size). -/
def MPIConnection.locale_ranks (c : MPIConnection) : Int := c.locale_size_

/-- The default constructor MPIConnection(): its initializer list sets
all six integer fields to -1. -/
def MPIConnection.default : MPIConnection :=
  { rank_ := -1, size_ := -1, locales_ := -1
  , locale_ := -1, locale_rank_ := -1, locale_size_ := -1 }

/-! ## init, modelled from the spec -/

/-- The distinct node identifiers of a job, in the order first
encountered when walking the processes by increasing global rank.
Helper for the spec-modelled `init` below. -/
def distinctHosts : List String → List String
  | [] => []
  | h :: t => h :: distinctHosts (t.filter (fun x => x ≠ h))
termination_by l => l.length
decreasing_by
  exact Nat.lt_succ_of_le (List.length_filter_le _ _)

/-- Modelled from the spec: the body of MPIConnection::init is declared
in src/MPIConnection.hpp but not defined in the available sources.
Following the spec, `init` bootstraps the transport, stores this
process's global rank `p` and the job size, splits the global domain
by host name (same host name means same node-local domain, node IDs
assigned in the order node identifiers are first encountered over the
global-rank order), and stores the node-local rank and size obtained
inside the resulting sub-domain.  `hosts` lists the host name of every
process, indexed by global rank; all previous field values are
overwritten. -/
def MPIConnection.init (_c : MPIConnection) (hosts : List String) (p : Nat) :
    MPIConnection :=
  { rank_ := (p : Int)
  , size_ := (hosts.length : Int)
  , locales_ := ((distinctHosts hosts).length : Int)
  , locale_ := (((distinctHosts hosts).indexOf (hosts.getD p "")) : Int)
  , locale_rank_ := ((((hosts.take p).filter (fun x => x = hosts.getD p "")).length) : Int)
  , locale_size_ := (((hosts.filter (fun x => x = hosts.getD p "")).length) : Int) }

/-- The convenience constructor MPIConnection(int*, char***): its
initializer list is identical to the default constructor (all six
fields set to -1), after which its body calls init on the arguments. -/
def MPIConnection.mkInit (hosts : List String) (p : Nat) : MPIConnection :=
  MPIConnection.init
    { rank_ := -1, size_ := -1, locales_ := -1
    , locale_ := -1, locale_rank_ := -1, locale_size_ := -1 }
    hosts p

/-! ## Destructor -/

/-- Observable local effect of running the destructor: the lines it
printed to std::cerr and whether it invoked finalize(). -/
structure DtorEffect where
  stderrLines : List String
  finalizeCalled : Bool
deriving DecidableEq, Repr

/-- The warning text the destructor streams to std::cerr. -/
def dtorWarning : String :=
  "Warning: you should probably call finalize() before MPIConnection goes out of scope, or you may occassionally see deadlock."

/-- Shallow embedding of ~MPIConnection(): it queries MPI_Finalized
(through MPI_CHECK; the query is modelled as succeeding, returning the
transport-global flag `finalized`); when the flag is unset it streams
one warning line to std::cerr and calls finalize(), otherwise it does
nothing.  The body never reads any field of the handle, so the
connection argument is unused. -/
def MPIConnection.destructor (_c : MPIConnection) (finalized : Bool) : DtorEffect :=
  if ¬finalized then
    { stderrLines := [dtorWarning], finalizeCalled := true }
  else
    { stderrLines := [], finalizeCalled := false }

/-! ## Per-process state and the remaining member functions,
modelled from the spec -/

/-- Local state of one process as seen by the handle's operations: the
connection fields, the transport-global finalized flag, the lines
printed to the error stream so far, and the host name the OS reports
for this process (fixed for the process lifetime). -/
structure ProcState where
  conn : MPIConnection
  mpiFinalized : Bool
  stderrLines : List String
  host : String
deriving DecidableEq, Repr

/-- Modelled from the spec: the body of MPIConnection::barrier is not
defined in the available sources.  Per the spec it blocks until every
process of the global domain has arrived and changes no local field;
its local state effect is therefore the identity. -/
def ProcState.doBarrier (s : ProcState) : ProcState := s

/-- Modelled from the spec: the body of MPIConnection::locale_barrier
is not defined in the available sources.  Identical local semantics to
barrier, restricted to the node-local domain: no local field changes. -/
def ProcState.doLocaleBarrier (s : ProcState) : ProcState := s

/-- Modelled from the spec: the body of MPIConnection::hostname is not
defined in the available sources.  Per the spec it performs a standard
host-name lookup and returns the process's host name, a
process-lifetime string; it mutates nothing. -/
def ProcState.doHostname (s : ProcState) : String × ProcState := (s.host, s)

/-- Modelled from the spec: the body of MPIConnection::finalize is not
defined in the available sources.  Per the spec it releases the
transport runtime's resources; afterwards the transport reports itself
finalized.  It does not touch the six integer fields. -/
def ProcState.doFinalize (s : ProcState) : ProcState :=
  { s with mpiFinalized := true }

/-! ## Barrier rendezvous model, modelled from the spec -/

/-- Barrier progress of one process: it has not yet called barrier(),
it has called barrier() and is blocked inside it, or its barrier()
call has returned. -/
inductive BStatus where
  | before
  | arrived
  | passed
deriving DecidableEq, Repr

/-- Modelled from the spec: the body of MPIConnection::barrier is not
defined in the available sources; per the spec it blocks the calling
process until every process in the global domain has called barrier().
A job state is the list of per-process barrier statuses, indexed by
global rank.  A process may move from before to arrived at any time
(it calls barrier()); it may move from arrived to passed (its call
returns) only when no process is still in the before state, i.e. only
after every process has arrived at the barrier. -/
inductive BarrierStep : List BStatus → List BStatus → Prop where
  | arrive (s : List BStatus) (i : Nat) (hi : i < s.length)
      (hb : s.get ⟨i, hi⟩ = BStatus.before) :
      BarrierStep s (s.set i BStatus.arrived)
  | pass (s : List BStatus) (i : Nat) (hi : i < s.length)
      (ha : s.get ⟨i, hi⟩ = BStatus.arrived)
      (hall : ∀ x ∈ s, x ≠ BStatus.before) :
      BarrierStep s (s.set i BStatus.passed)

/-! ## Theorems -/

/-- C1: routing a transport call through MPI_CHECK, a non-zero status
code makes the wrapper print one stderr line naming the failing call
together with the transport's translated error string and terminate
the process with exit status 1; a zero status code has no effect. -/
theorem mpi_check_fail_fast (callText : String) (retval : Int)
    (errString : Int → String) :
    (retval ≠ 0 →
      MPI_CHECK callText retval errString =
        CheckOutcome.exited
          ("MPI call failed: " ++ callText ++ ": " ++ errString retval ++ "\n") 1) ∧
    (retval = 0 → MPI_CHECK callText retval errString = CheckOutcome.ok) := by
  constructor
  · intro h
    simp [MPI_CHECK, h]
  · intro h
    simp [MPI_CHECK, h]

/-- Witness for C1 at the concrete status codes 3 and 0. -/
theorem mpi_check_fail_fast_witness :
    MPI_CHECK "MPI_Init( argc_p, argv_p )" 3 (fun _ => "unknown error") =
      CheckOutcome.exited
        ("MPI call failed: " ++ "MPI_Init( argc_p, argv_p )" ++ ": " ++ "unknown error" ++ "\n") 1 ∧
    MPI_CHECK "MPI_Init( argc_p, argv_p )" 0 (fun _ => "unknown error") =
      CheckOutcome.ok :=
  ⟨(mpi_check_fail_fast "MPI_Init( argc_p, argv_p )" 3 (fun _ => "unknown error")).1
      (by decide),
   (mpi_check_fail_fast "MPI_Init( argc_p, argv_p )" 0 (fun _ => "unknown error")).2
      rfl⟩

/-- C2: the destructor, on a transport not yet finalized, emits exactly
one warning line on the error stream and calls finalize(); on an
already-finalized transport it emits nothing and does not call
finalize().  The embedding is a total function, so neither case
throws. -/
theorem dtor_warning_behaviour (c : MPIConnection) (finalized : Bool) :
    (finalized = false →
      c.destructor finalized =
        { stderrLines := [dtorWarning], finalizeCalled := true }) ∧
    (finalized = true →
      c.destructor finalized = { stderrLines := [], finalizeCalled := false }) := by
  constructor
  · intro h
    simp [MPIConnection.destructor, h]
  · intro h
    simp [MPIConnection.destructor, h]

/-- Witness for C2 on the default-constructed handle at both flag
values. -/
theorem dtor_warning_behaviour_witness :
    MPIConnection.default.destructor false =
      { stderrLines := [dtorWarning], finalizeCalled := true } ∧
    MPIConnection.default.destructor true =
      { stderrLines := [], finalizeCalled := false } :=
  ⟨(dtor_warning_behaviour MPIConnection.default false).1 rfl,
   (dtor_warning_behaviour MPIConnection.default true).2 rfl⟩

/-- C3: after default construction, all six integer fields (read
through their accessors) equal the sentinel -1. -/
theorem default_ctor_sentinels :
    MPIConnection.default.rank = -1 ∧
    MPIConnection.default.size = -1 ∧
    MPIConnection.default.locales = -1 ∧
    MPIConnection.default.locale = -1 ∧
    MPIConnection.default.locale_rank = -1 ∧
    MPIConnection.default.locale_size = -1 :=
  ⟨rfl, rfl, rfl, rfl, rfl, rfl⟩

/-- C4: in every state of an MPIConnection, the accessor ranks equals
the accessor size and the accessor locale_ranks equals the accessor
locale_size; both references are bound to the same underlying field,
so no operation can break either equality. -/
theorem ranks_size_aliases (c : MPIConnection) :
    c.ranks = c.size ∧ c.locale_ranks = c.locale_size :=
  ⟨rfl, rfl⟩

/-- C5: the convenience constructor taking the argument list produces
exactly the state obtained by default-constructing and then calling
init: its initializer list coincides with the default constructor and
its body is the init call. -/
theorem ctor_init_equivalence (hosts : List String) (p : Nat) :
    MPIConnection.mkInit hosts p = MPIConnection.default.init hosts p :=
  rfl

/-- C10: the destructor's behaviour depends only on the transport's
global finalized flag, never on the handle's fields; in particular a
never-initialized handle destroyed while the transport is not
finalized still prints the warning and attempts finalize(). -/
theorem dtor_ignores_init_state :
    (∀ (c₁ c₂ : MPIConnection) (finalized : Bool),
      c₁.destructor finalized = c₂.destructor finalized) ∧
    MPIConnection.default.destructor false =
      { stderrLines := [dtorWarning], finalizeCalled := true } :=
  ⟨fun _ _ _ => rfl, rfl⟩

/-- C6: no operation available after init — barrier(), locale_barrier(),
hostname(), finalize(), or reading an accessor — changes any of the six
integer fields; the accessors are pure reads, so they cannot be used to
mutate the fields.  Stated over every process state, which covers in
particular every post-init state. -/
theorem ops_preserve_fields (s : ProcState) :
    s.doBarrier.conn = s.conn ∧
    s.doLocaleBarrier.conn = s.conn ∧
    s.doHostname.2.conn = s.conn ∧
    s.doFinalize.conn = s.conn ∧
    (s.conn.rank = s.conn.rank_ ∧ s.conn.size = s.conn.size_ ∧
     s.conn.ranks = s.conn.size_ ∧ s.conn.locales = s.conn.locales_ ∧
     s.conn.locale = s.conn.locale_ ∧ s.conn.locale_rank = s.conn.locale_rank_ ∧
     s.conn.locale_size = s.conn.locale_size_ ∧ s.conn.locale_ranks = s.conn.locale_size_) :=
  ⟨rfl, rfl, rfl, rfl, rfl, rfl, rfl, rfl, rfl, rfl, rfl, rfl⟩

/-- C9: hostname() called twice within the same process returns the
same string both times. -/
theorem hostname_idempotent (s : ProcState) :
    s.doHostname.1 = s.doHostname.2.doHostname.1 :=
  rfl

/-- Helper: splitting four processes that share one host name yields a
single node identifier. -/
theorem distinctHosts_four (h : String) : distinctHosts [h, h, h, h] = [h] := by
  have hf : [h, h, h].filter (fun x => x ≠ h) = [] := by simp
  rw [distinctHosts, hf, distinctHosts]

/-- C7: in a job of 4 processes all on one node (all four report the
same host name), after init every process observes node count 1,
node id 0, node-local size 4, global size 4, and the node-local ranks
across the 4 processes are a permutation of 0, 1, 2, 3. -/
theorem single_node_four_procs (h : String) (p : Nat) (hp : p < 4) :
    ((MPIConnection.default.init [h, h, h, h] p).locales = 1 ∧
     (MPIConnection.default.init [h, h, h, h] p).locale = 0 ∧
     (MPIConnection.default.init [h, h, h, h] p).locale_size = 4 ∧
     (MPIConnection.default.init [h, h, h, h] p).size = 4) ∧
    ((List.range 4).map
        (fun q => (MPIConnection.default.init [h, h, h, h] q).locale_rank)).Perm
      [0, 1, 2, 3] := by
  constructor
  · interval_cases p <;>
      simp [MPIConnection.init, MPIConnection.locales, MPIConnection.locale,
        MPIConnection.locale_size, MPIConnection.size, distinctHosts_four]
  · have hr : List.range 4 = [0, 1, 2, 3] := by decide
    have hm : (List.range 4).map
        (fun q => (MPIConnection.default.init [h, h, h, h] q).locale_rank) =
        [0, 1, 2, 3] := by
      rw [hr]
      simp [MPIConnection.init, MPIConnection.locale_rank]
    rw [hm]

/-- Witness for C7 at the concrete host name "node0" and process 0. -/
theorem single_node_four_procs_witness :
    ((MPIConnection.default.init ["node0", "node0", "node0", "node0"] 0).locales = 1 ∧
     (MPIConnection.default.init ["node0", "node0", "node0", "node0"] 0).locale = 0 ∧
     (MPIConnection.default.init ["node0", "node0", "node0", "node0"] 0).locale_size = 4 ∧
     (MPIConnection.default.init ["node0", "node0", "node0", "node0"] 0).size = 4) ∧
    ((List.range 4).map
        (fun q =>
          (MPIConnection.default.init ["node0", "node0", "node0", "node0"] q).locale_rank)).Perm
      [0, 1, 2, 3] :=
  single_node_four_procs "node0" 0 (by decide)

/-- Helper: one barrier step preserves the invariant that a returned
barrier call implies nobody is still outside the barrier. -/
theorem barrierStep_preserves (s t : List BStatus)
    (hst : BarrierStep s t)
    (hs : BStatus.passed ∈ s → BStatus.before ∉ s) :
    BStatus.passed ∈ t → BStatus.before ∉ t := by
  cases hst with
  | arrive i hi hb =>
      intro hp
      rcases List.mem_or_eq_of_mem_set hp with hps | he
      · have hbs : BStatus.before ∈ s := hb ▸ List.get_mem s i hi
        exact absurd hbs (hs hps)
      · cases he
  | pass i hi ha hall =>
      intro hp hbm
      rcases List.mem_or_eq_of_mem_set hbm with hbs | he
      · exact hall _ hbs rfl
      · cases he

/-- C8: in every job state reachable from the initial state (all n
processes yet to call barrier()), if some process's barrier() call has
returned, then no process remains that has not called barrier(): no
call returns while some peer has not yet arrived. -/
theorem barrier_no_early_return (n : Nat) (s : List BStatus)
    (hreach : Relation.ReflTransGen BarrierStep (List.replicate n BStatus.before) s)
    (hp : BStatus.passed ∈ s) :
    BStatus.before ∉ s := by
  induction hreach with
  | refl => cases List.eq_of_mem_replicate hp
  | tail hab hbc ih => exact barrierStep_preserves _ _ hbc ih hp

/-- Witness for C8: a concrete 2-process run — both arrive, process 0
passes — reaches a state with a returned call and nobody before the
barrier. -/
theorem barrier_no_early_return_witness :
    BStatus.before ∉ [BStatus.passed, BStatus.arrived] := by
  have h1 : BarrierStep [BStatus.before, BStatus.before]
      [BStatus.arrived, BStatus.before] :=
    BarrierStep.arrive _ 0 (by decide) rfl
  have h2 : BarrierStep [BStatus.arrived, BStatus.before]
      [BStatus.arrived, BStatus.arrived] :=
    BarrierStep.arrive _ 1 (by decide) rfl
  have h3 : BarrierStep [BStatus.arrived, BStatus.arrived]
      [BStatus.passed, BStatus.arrived] :=
    BarrierStep.pass _ 0 (by decide) rfl (by decide)
  exact barrier_no_early_return 2 _
    (Relation.ReflTransGen.tail
      (Relation.ReflTransGen.tail
        (Relation.ReflTransGen.tail Relation.ReflTransGen.refl h1) h2) h3)
    (by decide)

end MPIRepo
